import Mathlib

/-!
Verification development for the vibeskiing endless-runner core.
The definitions below are a shallow embedding, over exact rational
arithmetic, of the simulation code in src/components/Game.tsx and the
leaderboard client in src/lib/supabase.ts (plus the iteration of that
file present in the repository as an unnamed source).
-/

namespace VibeSkiing

/-- A 3D vector with exact rational coordinates, standing in for THREE.Vector3. -/
structure Vec3 where
  x : ℚ
  y : ℚ
  z : ℚ
deriving DecidableEq, Repr

/-- The closed enum of obstacle kinds in the OBSTACLES catalog. -/
inductive ObstacleType
  | tree
  | rock
  | bump
  | pole
deriving DecidableEq, Repr

/-- One collision segment of a multi-part obstacle (the pole). -/
structure CollisionSegment where
  height : ℚ
  radius : ℚ
  yOffset : ℚ
deriving DecidableEq, Repr

/-- One entry of the OBSTACLES catalog.  collisionHeight is optional because
the pole entry omits it (the code falls back to 2 in that case); visual-only
fields (color) are not modelled. -/
structure ObstacleConfig where
  scaleX : ℚ
  scaleY : ℚ
  scaleZ : ℚ
  yOffset : ℚ
  collisionRadius : ℚ
  collisionHeight : Option ℚ
  collisionSegments : Option (List CollisionSegment)
  weight : ℚ
deriving DecidableEq, Repr

/-- The OBSTACLES catalog from Game.tsx, with its exact numeric constants. -/
def OBSTACLES : ObstacleType → ObstacleConfig
  | .tree => { scaleX := 5, scaleY := 5, scaleZ := 5, yOffset := 2,
               collisionRadius := 3/10, collisionHeight := some 2,
               collisionSegments := none, weight := 4/10 }
  | .rock => { scaleX := 2, scaleY := 2, scaleZ := 2, yOffset := -3/2,
               collisionRadius := 1, collisionHeight := some (3/2),
               collisionSegments := none, weight := 3/10 }
  | .bump => { scaleX := 1, scaleY := 1, scaleZ := 1, yOffset := -57/20,
               collisionRadius := 4/10, collisionHeight := some (3/10),
               collisionSegments := none, weight := 2/10 }
  | .pole => { scaleX := 15/4, scaleY := 15/4, scaleZ := 15/4, yOffset := 1,
               collisionRadius := 3/10, collisionHeight := none,
               collisionSegments := some
                 [ { height := 3, radius := 3/10, yOffset := 0 },
                   { height := 1, radius := 3/10, yOffset := 5/2 } ],
               weight := 1/10 }

/-- A spawned obstacle instance (kind, world position, id). -/
structure Obstacle where
  type : ObstacleType
  position : Vec3
  id : ℚ
deriving DecidableEq, Repr

/-- Player hitbox width constant from checkCollision. -/
def playerWidth : ℚ := 12/10

/-- Player hitbox depth constant from checkCollision. -/
def playerDepth : ℚ := 1

/-- Player hitbox height constant from checkCollision. -/
def playerHeight : ℚ := 6

/-- Minimum corner of the player hitbox, as computed in checkCollision. -/
def playerBoxMin (p : Vec3) : Vec3 :=
  ⟨p.x - playerWidth / 2, p.y - 3, p.z - playerDepth / 2⟩

/-- Maximum corner of the player hitbox, as computed in checkCollision. -/
def playerBoxMax (p : Vec3) : Vec3 :=
  ⟨p.x + playerWidth / 2, p.y + playerHeight - 2, p.z + playerDepth / 2⟩

/-- The inclusive 3-axis AABB overlap test used verbatim in checkCollision. -/
def boxesOverlap (pMin pMax oMin oMax : Vec3) : Bool :=
  decide (oMin.x ≤ pMax.x) && decide (pMin.x ≤ oMax.x) &&
  decide (oMin.y ≤ pMax.y) && decide (pMin.y ≤ oMax.y) &&
  decide (oMin.z ≤ pMax.z) && decide (pMin.z ≤ oMax.z)

/-- Collision test of checkCollision in Game.tsx: for a kind with
collisionSegments, any segment box may overlap; otherwise a single box
derived from collisionRadius and collisionHeight. -/
def checkCollision (playerPosition : Vec3) (obstacle : Obstacle) : Bool :=
  let config := OBSTACLES obstacle.type
  let opos := obstacle.position
  let pMin := playerBoxMin playerPosition
  let pMax := playerBoxMax playerPosition
  match config.collisionSegments with
  | some segs =>
      segs.any fun seg =>
        let obstacleRadius := seg.radius * config.scaleX
        let obstacleHeight := seg.height * config.scaleY
        let oMin : Vec3 := ⟨opos.x - obstacleRadius, opos.y + seg.yOffset,
                            opos.z - obstacleRadius⟩
        let oMax : Vec3 := ⟨opos.x + obstacleRadius,
                            opos.y + seg.yOffset + obstacleHeight,
                            opos.z + obstacleRadius⟩
        boxesOverlap pMin pMax oMin oMax
  | none =>
      let obstacleRadius := config.collisionRadius * config.scaleX
      let obstacleHeight := (config.collisionHeight.getD 2) * config.scaleY
      let oMin : Vec3 := ⟨opos.x - obstacleRadius, opos.y, opos.z - obstacleRadius⟩
      let oMax : Vec3 := ⟨opos.x + obstacleRadius, opos.y + obstacleHeight,
                          opos.z + obstacleRadius⟩
      boxesOverlap pMin pMax oMin oMax

example : checkCollision ⟨1/2, 2, 0⟩ ⟨.tree, ⟨0, 0, 0⟩, 0⟩ = true := by
  norm_num [checkCollision, OBSTACLES, boxesOverlap, playerBoxMin, playerBoxMax,
    playerWidth, playerDepth, playerHeight]

example : checkCollision ⟨20, 2, 0⟩ ⟨.tree, ⟨0, 0, 0⟩, 0⟩ = false := by
  norm_num [checkCollision, OBSTACLES, boxesOverlap, playerBoxMin, playerBoxMax,
    playerWidth, playerDepth, playerHeight]

example : checkCollision ⟨0, 2, 0⟩ ⟨.pole, ⟨0, 0, 0⟩, 0⟩ = true := by
  norm_num [checkCollision, OBSTACLES, boxesOverlap, playerBoxMin, playerBoxMax,
    playerWidth, playerDepth, playerHeight, List.any_cons]

/-- Inclusive overlap of two AABBs on all three axes, written as a
proposition, following the wording of the specification (intervals
intersect, inclusive comparisons on both min and max per axis). -/
def aabbOverlapProp (aMin aMax bMin bMax : Vec3) : Prop :=
  bMin.x ≤ aMax.x ∧ aMin.x ≤ bMax.x ∧
  bMin.y ≤ aMax.y ∧ aMin.y ≤ bMax.y ∧
  bMin.z ≤ aMax.z ∧ aMin.z ≤ bMax.z

/-- Minimum corner of a segment collision box as the spec describes it:
half-width segment.radius times scale.x, base at the obstacle y plus
segment.yOffset. -/
def segBoxMin (opos : Vec3) (cfg : ObstacleConfig) (seg : CollisionSegment) : Vec3 :=
  ⟨opos.x - seg.radius * cfg.scaleX, opos.y + seg.yOffset,
   opos.z - seg.radius * cfg.scaleX⟩

/-- Maximum corner of a segment collision box as the spec describes it:
the base raised by height segment.height times scale.y. -/
def segBoxMax (opos : Vec3) (cfg : ObstacleConfig) (seg : CollisionSegment) : Vec3 :=
  ⟨opos.x + seg.radius * cfg.scaleX, opos.y + seg.yOffset + seg.height * cfg.scaleY,
   opos.z + seg.radius * cfg.scaleX⟩

/-- Minimum corner of the single derived box of a non-segmented kind,
as the spec describes it (half-width collisionRadius times scale.x). -/
def singleBoxMin (opos : Vec3) (cfg : ObstacleConfig) : Vec3 :=
  ⟨opos.x - cfg.collisionRadius * cfg.scaleX, opos.y,
   opos.z - cfg.collisionRadius * cfg.scaleX⟩

/-- Maximum corner of the single derived box of a non-segmented kind,
as the spec describes it (height collisionHeight times scale.y). -/
def singleBoxMax (opos : Vec3) (cfg : ObstacleConfig) : Vec3 :=
  ⟨opos.x + cfg.collisionRadius * cfg.scaleX,
   opos.y + (cfg.collisionHeight.getD 2) * cfg.scaleY,
   opos.z + cfg.collisionRadius * cfg.scaleX⟩

/-- The collision condition exactly as the specification words it: for a
kind with collisionSegments, some segment box overlaps the player AABB;
for a kind without, the single derived box overlaps the player AABB. -/
def collisionSpec (p : Vec3) (ob : Obstacle) : Prop :=
  let cfg := OBSTACLES ob.type
  match cfg.collisionSegments with
  | some segs =>
      ∃ seg ∈ segs,
        aabbOverlapProp (playerBoxMin p) (playerBoxMax p)
          (segBoxMin ob.position cfg seg) (segBoxMax ob.position cfg seg)
  | none =>
      aabbOverlapProp (playerBoxMin p) (playerBoxMax p)
        (singleBoxMin ob.position cfg) (singleBoxMax ob.position cfg)

/-- C1: for every obstacle of a kind with collisionSegments (the pole),
checkCollision returns true iff at least one segment AABB overlaps the
player AABB on all three axes with inclusive bounds, and for every
obstacle of a kind without segments (tree, rock, bump) iff the single
derived box overlaps the player AABB. -/
theorem checkCollision_iff_collisionSpec (p : Vec3) (ob : Obstacle) :
    checkCollision p ob = true ↔ collisionSpec p ob := by
  cases hob : ob.type <;>
    simp [checkCollision, collisionSpec, OBSTACLES, hob, boxesOverlap,
      segBoxMin, segBoxMax, singleBoxMin, singleBoxMax, aabbOverlapProp,
      List.any_eq_true, decide_eq_true_eq, Bool.and_eq_true, and_assoc]

/-- Base forward movement multiplier in the GameScene frame loop
(movementSpeed = 40 * speed; the source comment records its history
10 to 20 to 40). -/
def baseForwardSpeed : ℚ := 40

/-- Lateral movement speed constant in the GameScene frame loop. -/
def lateralSpeed : ℚ := 18

/-- Lateral soft wall constant in the GameScene frame loop. -/
def boundaryX : ℚ := 50

/-- Forward movement of one frame: playerPosition.z decreases by
movementSpeed times deltaTime, with movementSpeed = 40 * speed. -/
def forwardStep (z speed deltaTime : ℚ) : ℚ :=
  z - (baseForwardSpeed * speed) * deltaTime

/-- Score update of one frame: setScore adds deltaTime * 10 * speed. -/
def scoreStep (score speed deltaTime : ℚ) : ℚ :=
  score + deltaTime * 10 * speed

/-- Lateral movement of one frame before clamping, from the if chain on
leftPressed and rightPressed in the GameScene frame loop. -/
def lateralMove (leftPressed rightPressed : Bool) (x deltaTime : ℚ) : ℚ :=
  if leftPressed then x - lateralSpeed * deltaTime
  else if rightPressed then x + lateralSpeed * deltaTime
  else x

/-- The boundary clamp applied to playerPosition.x each frame. -/
def clampX (x : ℚ) : ℚ :=
  max (-boundaryX) (min boundaryX x)

/-- One full lateral update of a frame: movement followed by the clamp. -/
def playerXStep (leftPressed rightPressed : Bool) (deltaTime x : ℚ) : ℚ :=
  clampX (lateralMove leftPressed rightPressed x deltaTime)

/-- One frame input: left flag, right flag, delta time. -/
structure FrameInput where
  leftPressed : Bool
  rightPressed : Bool
  deltaTime : ℚ
deriving Repr

/-- Lateral position after a sequence of frames starting from x0. -/
def playerXAfter (frames : List FrameInput) (x0 : ℚ) : ℚ :=
  frames.foldl (fun x f => playerXStep f.leftPressed f.rightPressed f.deltaTime x) x0

/-- Speed multiplier update of one frame: setSpeed takes the minimum of 3
and the previous value plus deltaTime * 0.01. -/
def speedStep (speed deltaTime : ℚ) : ℚ :=
  min 3 (speed + deltaTime * (1/100))

/-- Speed multiplier after a list of frame delta times, from the initial
speed 1 of a fresh run. -/
def speedAfter (deltaTimes : List ℚ) : ℚ :=
  deltaTimes.foldl speedStep 1

/-- Base yeti speed constant from Game.tsx. -/
def BASE_YETI_SPEED : ℚ := 55

/-- Base yeti spawn distance constant from Game.tsx. -/
def BASE_YETI_SPAWN_DISTANCE : ℚ := 40

/-- Base yeti spawn chance constant from Game.tsx. -/
def BASE_YETI_SPAWN_CHANCE : ℚ := 1/10

/-- Lateral bound of the yeti sweep, boundsX of YETI_STATIC_CONFIG. -/
def yetiBoundsX : ℚ := 60

/-- Travel direction of an active yeti. -/
inductive YetiDir
  | left
  | right
deriving DecidableEq, Repr

/-- The YetiState record of Game.tsx. -/
structure YetiState where
  active : Bool
  position : Option Vec3
  direction : Option YetiDir
  spawnZ : Option ℚ
deriving Repr

/-- The inactive yeti state (also the value stored on despawn). -/
def yetiInactive : YetiState :=
  { active := false, position := none, direction := none, spawnZ := none }

/-- Count of live yeti instances held by a YetiState value. -/
def yetiActiveCount (s : YetiState) : Nat :=
  if s.active then 1 else 0

/-- Spawn distance scaled by the current speed multiplier
(currentSpawnDistance = BASE_YETI_SPAWN_DISTANCE * speed). -/
def currentSpawnDistance (speed : ℚ) : ℚ :=
  BASE_YETI_SPAWN_DISTANCE * speed

/-- Frozen spawn Z of a newly spawned yeti: playerZ minus the
speed-scaled spawn distance. -/
def yetiSpawnZ (playerZ speed : ℚ) : ℚ :=
  playerZ - currentSpawnDistance speed

/-- The full yeti spawn assignment from the GameScene frame loop: start X
at the bound the yeti comes from, Y at ground level, Z frozen at
yetiSpawnZ. -/
def yetiSpawn (playerZ speed : ℚ) (direction : YetiDir) : YetiState :=
  let startX : ℚ := match direction with
    | .left => yetiBoundsX
    | .right => -yetiBoundsX
  let sz := yetiSpawnZ playerZ speed
  { active := true, position := some ⟨startX, 0, sz⟩,
    direction := some direction, spawnZ := some sz }

/-- The yeti movement block of the GameScene frame loop: advance X by
BASE_YETI_SPEED * speed * deltaTime in the travel direction, pin Z to the
frozen spawn Z, and despawn once X passes the opposite bound. -/
def yetiMoveStep (speed deltaTime : ℚ) (s : YetiState) : YetiState :=
  match s.active, s.position, s.direction with
  | true, some pos, some dir =>
      let currentYetiSpeed := BASE_YETI_SPEED * speed
      let moveX := currentYetiSpeed * deltaTime * (match dir with
        | .left => (-1 : ℚ)
        | .right => 1)
      let nx := pos.x + moveX
      let nz := s.spawnZ.getD 0
      if (dir = .left ∧ nx < -yetiBoundsX) ∨ (dir = .right ∧ yetiBoundsX < nx) then
        yetiInactive
      else
        { s with position := some ⟨nx, pos.y, nz⟩ }
  | _, _, _ => s

/-- Segment length constant of the Terrain component. -/
def segmentLength : ℚ := 200

/-- Segment index of a world Z coordinate, Math.floor of z divided by the
segment length. -/
def segmentIndexOfZ (z : ℚ) : ℤ :=
  ⌊z / segmentLength⌋

/-- The indices visited by the generation loop of the Terrain frame
callback, from currentSegment - 1 up to currentSegment + 3. -/
def windowIndices (currentSegment : ℤ) : List ℤ :=
  [currentSegment - 1, currentSegment, currentSegment + 1,
   currentSegment + 2, currentSegment + 3]

/-- The mutable state of the Terrain component: visible segment indices,
the live obstacle list, and the player Z of the last cleanup. -/
structure TerrainState where
  visibleSegments : List ℤ
  obstacles : List Obstacle
  lastCleanup : ℚ
deriving Repr

/-- The Terrain frame callback. gen abstracts generateObstaclesForSegment
(which draws from a non-seeded random source); the streaming logic is
independent of what it returns. First every window index not yet visible
is generated and marked visible; then, when the player has moved more
than one segment length since the last cleanup, obstacles and indices
below currentSegment - 2 are evicted. -/
def terrainAdvance (gen : ℤ → List Obstacle) (playerZ : ℚ) (s : TerrainState) :
    TerrainState :=
  let currentSegment := segmentIndexOfZ playerZ
  let segmentsToGenerate :=
    (windowIndices currentSegment).filter fun i => ! s.visibleSegments.contains i
  let visible1 := s.visibleSegments ++ segmentsToGenerate
  let obstacles1 := s.obstacles ++ (segmentsToGenerate.map gen).flatten
  if segmentLength < |playerZ - s.lastCleanup| then
    let cleanupThreshold := currentSegment - 2
    { visibleSegments := visible1.filter fun i => decide (cleanupThreshold ≤ i),
      obstacles := obstacles1.filter fun ob =>
        decide (cleanupThreshold ≤ segmentIndexOfZ ob.position.z),
      lastCleanup := playerZ }
  else
    { visibleSegments := visible1, obstacles := obstacles1,
      lastCleanup := s.lastCleanup }

/-- A leaderboard row, the LeaderboardEntry interface of supabase.ts. -/
structure LeaderboardEntry where
  id : String
  name : String
  score : ℤ
  time : ℤ
  created_at : String
deriving DecidableEq, Repr

/-- Scores sorted descending, the semantics of the order by score
descending clause of the leaderboard queries. -/
def sortDesc (l : List ℤ) : List ℤ :=
  l.insertionSort (· ≥ ·)

/-- Semantics of the select score, order by score descending, limit n
query that checkHighScore issues: the n largest scores of the stored
table, in descending order. -/
def queryTopScores (n : ℕ) (db : List ℤ) : List ℤ :=
  (sortDesc db).take n

/-- getLeaderboard of supabase.ts applied to a query response: the rows
on success and the empty list when the query reports an error. -/
def getLeaderboard (resp : Except Unit (List LeaderboardEntry)) :
    List LeaderboardEntry :=
  match resp with
  | .error _ => []
  | .ok data => data

/-- checkHighScore of src/lib/supabase.ts applied to the response of its
limit-1 query: false on error, true when no scores exist, and otherwise
true exactly when score is strictly greater than the highest stored
score. -/
def checkHighScore (resp : Except Unit (List ℤ)) (score : ℤ) : Bool :=
  match resp with
  | .error _ => false
  | .ok [] => true
  | .ok (top :: _) => decide (top < score)

/-- checkHighScore of src/lib/supabase.ts composed with the semantics of
its query over a stored score table db. -/
def checkHighScoreDb (db : List ℤ) (score : ℤ) : Bool :=
  checkHighScore (Except.ok (queryTopScores 1 db)) score

/-- The checkHighScore of the later iteration of supabase.ts found among
the unnamed repository sources, applied to the response of its limit-10
query: false on error, true when fewer than 10 rows come back, otherwise
true exactly when score beats the last (lowest) of the 10 rows. -/
def checkHighScoreTop10 (resp : Except Unit (List ℤ)) (score : ℤ) : Bool :=
  match resp with
  | .error _ => false
  | .ok data =>
      if data.length < 10 then true
      else decide (data.getLastD 0 < score)

/-- The top-10 iteration of checkHighScore composed with the semantics of
its query over a stored score table db. -/
def checkHighScoreTop10Db (db : List ℤ) (score : ℤ) : Bool :=
  checkHighScoreTop10 (Except.ok (queryTopScores 10 db)) score

/-- The current 10th-place score of the stored table: the last of the top
10 scores in descending order. -/
def tenthPlaceScore (db : List ℤ) : ℤ :=
  (queryTopScores 10 db).getLastD 0

/-- C3 counterexample: with both direction inputs active the lateral
position does change (the left branch of the if chain wins), refuting
the claim that it stays unchanged. At x = 0, dt = 1/10 the position
moves to -9/5. -/
theorem lateralMove_both_pressed_cex :
    lateralMove true true 0 (1/10) = -9/5 ∧ lateralMove true true 0 (1/10) ≠ 0 := by
  constructor <;> norm_num [lateralMove, lateralSpeed]

/-- C3 amended: with exactly one direction input active the lateral
position shifts by lateralSpeed times dt in that direction; with neither
active it is unchanged; with both active the left input takes precedence
and the position shifts left by lateralSpeed times dt. -/
theorem lateralMove_cases (x dt : ℚ) :
    lateralMove true false x dt = x - lateralSpeed * dt ∧
    lateralMove false true x dt = x + lateralSpeed * dt ∧
    lateralMove false false x dt = x ∧
    lateralMove true true x dt = x - lateralSpeed * dt := by
  refine ⟨rfl, rfl, rfl, rfl⟩

lemma playerXStep_bounds (l r : Bool) (dt x : ℚ) :
    -boundaryX ≤ playerXStep l r dt x ∧ playerXStep l r dt x ≤ boundaryX := by
  unfold playerXStep clampX
  refine ⟨le_max_left _ _, max_le ?_ (min_le_left _ _)⟩
  norm_num [boundaryX]

lemma playerXAfter_bounds_from (fs : List FrameInput) :
    ∀ x : ℚ, -boundaryX ≤ x → x ≤ boundaryX →
      -boundaryX ≤ playerXAfter fs x ∧ playerXAfter fs x ≤ boundaryX := by
  induction fs with
  | nil => intro x h1 h2; exact ⟨h1, h2⟩
  | cons f fs ih =>
      intro x h1 h2
      have hstep := playerXStep_bounds f.leftPressed f.rightPressed f.deltaTime x
      exact ih _ hstep.1 hstep.2

/-- C4: after any nonempty sequence of frames with arbitrary left and
right inputs and nonnegative delta times, the lateral position lies in
the closed interval from -boundaryX to boundaryX (boundaryX = 50). -/
theorem playerXAfter_within_bounds (frames : List FrameInput) (x0 : ℚ)
    (hne : frames ≠ []) (hdt : ∀ f ∈ frames, 0 ≤ f.deltaTime) :
    -boundaryX ≤ playerXAfter frames x0 ∧ playerXAfter frames x0 ≤ boundaryX := by
  cases frames with
  | nil => exact absurd rfl hne
  | cons f fs =>
      have hstep := playerXStep_bounds f.leftPressed f.rightPressed f.deltaTime x0
      exact playerXAfter_bounds_from fs _ hstep.1 hstep.2

/-- C4 witness: a concrete one-frame run (left held, dt = 1) ends inside
the lateral bounds. -/
theorem playerXAfter_within_bounds_witness :
    -boundaryX ≤ playerXAfter [⟨true, false, 1⟩] 0 ∧
      playerXAfter [⟨true, false, 1⟩] 0 ≤ boundaryX :=
  playerXAfter_within_bounds [⟨true, false, 1⟩] 0 (by simp)
    (by intro f hf; rw [List.mem_singleton] at hf; subst hf; norm_num)

lemma speedStep_le_three (s dt : ℚ) : speedStep s dt ≤ 3 :=
  min_le_left _ _

lemma le_speedStep (s dt : ℚ) (h3 : s ≤ 3) (hdt : 0 ≤ dt) : s ≤ speedStep s dt := by
  have : (0:ℚ) ≤ dt * (1/100) := by positivity
  exact le_min h3 (by linarith)

lemma foldl_speedStep_le_three (l : List ℚ) :
    ∀ s : ℚ, s ≤ 3 → List.foldl speedStep s l ≤ 3 := by
  induction l with
  | nil => intro s h; exact h
  | cons d l ih => intro s _; exact ih _ (speedStep_le_three s d)

lemma speedAfter_le_three (l : List ℚ) : speedAfter l ≤ 3 :=
  foldl_speedStep_le_three l 1 (by norm_num)

/-- C5: along any run, the speed multiplier is monotonically
non-decreasing over any extension of the frame sequence by nonnegative
delta times, and it never exceeds the cap 3. -/
theorem speedAfter_monotone_and_capped (p q : List ℚ) (hq : ∀ d ∈ q, 0 ≤ d) :
    speedAfter p ≤ speedAfter (p ++ q) ∧ speedAfter (p ++ q) ≤ 3 := by
  refine ⟨?_, speedAfter_le_three _⟩
  induction q generalizing p with
  | nil => simp
  | cons d q ih =>
      have h1 : speedAfter p ≤ speedAfter (p ++ [d]) := by
        unfold speedAfter
        rw [List.foldl_append]
        exact le_speedStep _ d (speedAfter_le_three p) (hq d (by simp))
      have h2 : speedAfter (p ++ [d]) ≤ speedAfter ((p ++ [d]) ++ q) :=
        ih (p ++ [d]) (fun e he => hq e (by simp [he]))
      calc speedAfter p ≤ speedAfter (p ++ [d]) := h1
        _ ≤ speedAfter ((p ++ [d]) ++ q) := h2
        _ = speedAfter (p ++ d :: q) := by simp

/-- C5 witness: a concrete run of two frames followed by one more frame
keeps the multiplier non-decreasing and below the cap. -/
theorem speedAfter_monotone_and_capped_witness :
    speedAfter [1/10, 1/10] ≤ speedAfter ([1/10, 1/10] ++ [1/10]) ∧
      speedAfter ([1/10, 1/10] ++ [1/10]) ≤ 3 :=
  speedAfter_monotone_and_capped [1/10, 1/10] [1/10]
    (by intro d hd; rw [List.mem_singleton] at hd; subst hd; norm_num)

/-- C7 counterexample: at z = 0, speed 1, dt = 1/10 the frame moves the
player to z = -4, not to z = -1 as the claim states, because the code
uses movementSpeed = 40 * speed, not 10 * speed. -/
theorem forwardStep_scenario_cex :
    forwardStep 0 1 (1/10) = -4 ∧ forwardStep 0 1 (1/10) ≠ -1 := by
  constructor <;> norm_num [forwardStep, baseForwardSpeed]

/-- C7 amended: forward displacement per frame is exactly
baseForwardSpeed * speed * dt with baseForwardSpeed = 40 in the code, so
the scenario at z = 0, speed 1, dt = 1/10 yields new z = -4; the score
gain of that frame is exactly 1 at score rate 10. -/
theorem forwardStep_and_score_scenario :
    (∀ z speed dt : ℚ, z - forwardStep z speed dt = baseForwardSpeed * speed * dt) ∧
    forwardStep 0 1 (1/10) = -4 ∧
    scoreStep 0 1 (1/10) - 0 = 1 := by
  refine ⟨fun z speed dt => ?_, ?_, ?_⟩
  · unfold forwardStep; ring
  · norm_num [forwardStep, baseForwardSpeed]
  · norm_num [scoreStep]

/-- C8 counterexample: at speed multiplier 2 the frozen spawn Z is
playerZ - 80, not playerZ - 36, because BASE_YETI_SPAWN_DISTANCE is 40
in the code, not 18. -/
theorem yetiSpawnZ_cex :
    yetiSpawnZ 0 2 = -80 ∧ yetiSpawnZ 0 2 ≠ -36 := by
  constructor <;>
    norm_num [yetiSpawnZ, currentSpawnDistance, BASE_YETI_SPAWN_DISTANCE]

/-- C8 amended: the frozen spawn Z of a newly spawned yeti equals
playerZ - BASE_YETI_SPAWN_DISTANCE * speed with the base distance 40 of
the code, so a spawn at speed multiplier 2 freezes Z at playerZ - 80. -/
theorem yetiSpawnZ_formula :
    (∀ pz speed : ℚ, yetiSpawnZ pz speed = pz - BASE_YETI_SPAWN_DISTANCE * speed) ∧
    (∀ pz : ℚ, yetiSpawnZ pz 2 = pz - 80) ∧
    (∀ (pz speed : ℚ) (dir : YetiDir),
      (yetiSpawn pz speed dir).spawnZ = some (yetiSpawnZ pz speed)) := by
  refine ⟨fun pz speed => rfl, fun pz => ?_, fun pz speed dir => rfl⟩
  norm_num [yetiSpawnZ, currentSpawnDistance, BASE_YETI_SPAWN_DISTANCE]

/-- C10: on a failed leaderboard query both iterations of checkHighScore
report the run as not qualifying, and getLeaderboard returns the empty
list instead of propagating the error. -/
theorem leaderboard_failure_behavior (score : ℤ) :
    checkHighScore (Except.error ()) score = false ∧
    checkHighScoreTop10 (Except.error ()) score = false ∧
    getLeaderboard (Except.error ()) = [] :=
  ⟨rfl, rfl, rfl⟩

/-- C6: the game holds at most one live yeti instance at any state, and
while the yeti is active and the frame advances with positive delta time
and positive speed multiplier, its X coordinate strictly decreases for a
left-moving yeti and strictly increases for a right-moving one, until the
despawn branch clears the state. -/
theorem yeti_unique_and_monotone (s : YetiState) (speed dt : ℚ) (pos : Vec3)
    (dir : YetiDir) (hdt : 0 < dt) (hsp : 0 < speed) :
    yetiActiveCount s ≤ 1 ∧
    (s.active = true → s.position = some pos → s.direction = some dir →
      ∀ pos' : Vec3, (yetiMoveStep speed dt s).position = some pos' →
        (dir = YetiDir.left → pos'.x < pos.x) ∧
        (dir = YetiDir.right → pos.x < pos'.x)) := by
  constructor
  · unfold yetiActiveCount
    split <;> omega
  · intro ha hp hd pos' hp'
    have hpos : 0 < BASE_YETI_SPEED * speed * dt := by
      unfold BASE_YETI_SPEED; positivity
    simp only [yetiMoveStep, ha, hp, hd] at hp'
    cases dir with
    | left =>
        refine ⟨fun _ => ?_, fun h => YetiDir.noConfusion h⟩
        split at hp'
        · simp [yetiInactive] at hp'
        · rw [Option.some.injEq] at hp'
          rw [← hp']
          simp only []
          nlinarith
    | right =>
        refine ⟨fun h => YetiDir.noConfusion h, fun _ => ?_⟩
        split at hp'
        · simp [yetiInactive] at hp'
        · rw [Option.some.injEq] at hp'
          rw [← hp']
          simp only []
          nlinarith

/-- C6 witness: a freshly spawned left-moving yeti at speed 1 moves from
x = 60 to a strictly smaller x within one frame of dt = 1, and the state
holds at most one instance. -/
theorem yeti_unique_and_monotone_witness :
    yetiActiveCount (yetiSpawn 0 1 YetiDir.left) ≤ 1 ∧
    ((5:ℚ) < 60) := by
  have h := yeti_unique_and_monotone (yetiSpawn 0 1 YetiDir.left) 1 1
    ⟨60, 0, -40⟩ YetiDir.left (by norm_num) (by norm_num)
  refine ⟨h.1, ?_⟩
  have hmono := (h.2 rfl (by
      norm_num [yetiSpawn, yetiSpawnZ, currentSpawnDistance,
        BASE_YETI_SPAWN_DISTANCE, yetiBoundsX])
    rfl ⟨5, 0, -40⟩ (by
      norm_num [yetiMoveStep, yetiSpawn, yetiSpawnZ, currentSpawnDistance,
        BASE_YETI_SPAWN_DISTANCE, BASE_YETI_SPEED, yetiBoundsX])).1 rfl
  simpa using hmono

lemma mem_windowIndices (cur i : ℤ) (h1 : cur - 1 ≤ i) (h2 : i ≤ cur + 3) :
    i ∈ windowIndices cur := by
  simp only [windowIndices, List.mem_cons, List.mem_singleton, List.not_mem_nil]
  omega

lemma mem_generated_visible (visible : List ℤ) (cur i : ℤ)
    (hi : i ∈ windowIndices cur) :
    i ∈ visible ++ (windowIndices cur).filter (fun j => ! visible.contains j) := by
  rw [List.mem_append]
  by_cases hv : i ∈ visible
  · exact Or.inl hv
  · refine Or.inr (List.mem_filter.mpr ⟨hi, ?_⟩)
    simp [hv]

/-- C2: after the Terrain frame callback, the visible segment set
contains every index from currentSegment - 1 to currentSegment + 3, and
whenever the cleanup pass fires (the player has moved more than one
segment length since the last cleanup), no live obstacle has segment
index below currentSegment - 2. Holds for every generator gen. -/
theorem terrainAdvance_window_and_cleanup (gen : ℤ → List Obstacle)
    (playerZ : ℚ) (s : TerrainState) :
    (∀ i : ℤ, segmentIndexOfZ playerZ - 1 ≤ i → i ≤ segmentIndexOfZ playerZ + 3 →
      i ∈ (terrainAdvance gen playerZ s).visibleSegments) ∧
    (segmentLength < |playerZ - s.lastCleanup| →
      ∀ ob ∈ (terrainAdvance gen playerZ s).obstacles,
        segmentIndexOfZ playerZ - 2 ≤ segmentIndexOfZ ob.position.z) := by
  unfold terrainAdvance
  by_cases hcl : segmentLength < |playerZ - s.lastCleanup|
  · simp only [hcl, if_pos]
    constructor
    · intro i h1 h2
      refine List.mem_filter.mpr ⟨?_, ?_⟩
      · exact mem_generated_visible _ _ i (mem_windowIndices _ i h1 h2)
      · simp only [decide_eq_true_eq]
        omega
    · intro _ ob hob
      exact of_decide_eq_true (List.mem_filter.mp hob).2
  · simp only [hcl, if_neg, not_false_iff]
    refine ⟨?_, fun h => h.elim⟩
    intro i h1 h2
    exact mem_generated_visible _ _ i (mem_windowIndices _ i h1 h2)

/-- C2 witness: a concrete frame at playerZ = 500 from the empty state
with a trivial generator: segment index 1 is inside the resulting
visible set, and the cleanup pass leaves no stale obstacle. -/
theorem terrainAdvance_window_and_cleanup_witness :
    (1:ℤ) ∈ (terrainAdvance (fun _ => []) 500 ⟨[], [], 0⟩).visibleSegments ∧
    (∀ ob ∈ (terrainAdvance (fun _ => []) 500 ⟨[], [], 0⟩).obstacles,
      segmentIndexOfZ 500 - 2 ≤ segmentIndexOfZ ob.position.z) := by
  have hseg : segmentIndexOfZ 500 = 2 := by
    rw [segmentIndexOfZ, segmentLength, Int.floor_eq_iff]
    norm_num
  have h := terrainAdvance_window_and_cleanup (fun _ => []) 500 ⟨[], [], 0⟩
  refine ⟨h.1 1 (by rw [hseg]; norm_num) (by rw [hseg]; norm_num), h.2 ?_⟩
  rw [segmentLength]
  norm_num

lemma mem_sortDesc {a : ℤ} {l : List ℤ} : a ∈ sortDesc l ↔ a ∈ l :=
  List.mem_insertionSort _

lemma sortDesc_length (l : List ℤ) : (sortDesc l).length = l.length :=
  List.length_insertionSort _ _

lemma sortDesc_sorted (l : List ℤ) : (sortDesc l).Sorted (· ≥ ·) :=
  List.sorted_insertionSort _ l

lemma sortDesc_head_ge {top : ℤ} {rest l : List ℤ} (h : sortDesc l = top :: rest) :
    ∀ x ∈ l, x ≤ top := by
  intro x hx
  have hx2 : x ∈ top :: rest := by
    rw [← h, mem_sortDesc]; exact hx
  rcases List.mem_cons.mp hx2 with rfl | hx3
  · exact le_refl x
  · have hs := sortDesc_sorted l
    rw [h] at hs
    exact List.rel_of_sorted_cons hs x hx3

lemma checkHighScoreTop10_ok (data : List ℤ) (score : ℤ) :
    checkHighScoreTop10 (Except.ok data) score =
      if data.length < 10 then true else decide (data.getLastD 0 < score) := rfl

/-- C9 counterexample: with a single stored score 5 (fewer than 10
entries) the shipped checkHighScore of src/lib/supabase.ts reports
score 0 as not qualifying, refuting the claim that any score qualifies
while fewer than 10 entries exist. -/
theorem checkHighScore_few_entries_cex :
    ([5] : List ℤ).length < 10 ∧ checkHighScoreDb [5] 0 = false := by
  exact ⟨by norm_num, rfl⟩

/-- C9 amended: the shipped checkHighScore of src/lib/supabase.ts
queries only the single top score, so it returns true iff the stored
table is empty or the score strictly exceeds every stored score; the
later iteration among the unnamed sources implements the claimed
behavior, returning true whenever fewer than 10 entries exist and, with
10 or more entries, true iff the score exceeds the 10th-place score. -/
theorem checkHighScore_characterization (db : List ℤ) (score : ℤ) :
    (checkHighScoreDb db score = true ↔ db = [] ∨ ∀ x ∈ db, x < score) ∧
    (db.length < 10 → checkHighScoreTop10Db db score = true) ∧
    (10 ≤ db.length →
      (checkHighScoreTop10Db db score = true ↔ tenthPlaceScore db < score)) := by
  refine ⟨?_, ?_, ?_⟩
  · unfold checkHighScoreDb queryTopScores
    cases hs : sortDesc db with
    | nil =>
        have hdb : db = [] := by
          have := sortDesc_length db
          rw [hs] at this
          exact List.length_eq_zero.mp this.symm
        subst hdb
        simp [checkHighScore]
    | cons top rest =>
        have hne : db ≠ [] := by
          intro hdb
          have hl := sortDesc_length db
          rw [hs, hdb] at hl
          simp at hl
        rw [show List.take 1 (top :: rest) = [top] from rfl]
        rw [show checkHighScore (Except.ok [top]) score = decide (top < score) from rfl]
        rw [decide_eq_true_eq]
        constructor
        · intro htop
          refine Or.inr fun x hx => lt_of_le_of_lt (sortDesc_head_ge hs x hx) htop
        · rintro (hdb | hall)
          · exact absurd hdb hne
          · refine hall top ?_
            rw [← mem_sortDesc, hs]
            exact List.mem_cons_self _ _
  · intro hlen
    unfold checkHighScoreTop10Db
    have h10 : (queryTopScores 10 db).length < 10 := by
      rw [queryTopScores, List.length_take, sortDesc_length]
      omega
    rw [checkHighScoreTop10_ok, if_pos h10]
  · intro hlen
    unfold checkHighScoreTop10Db tenthPlaceScore
    have h10 : ¬ (queryTopScores 10 db).length < 10 := by
      rw [queryTopScores, List.length_take, sortDesc_length]
      omega
    rw [checkHighScoreTop10_ok, if_neg h10, decide_eq_true_eq]

/-- C9 witness: on the concrete table of scores 3 and 5 the shipped
checkHighScore accepts score 6 (it beats the stored top score 5), and
the top-10 iteration accepts score 0 because fewer than 10 entries
exist. -/
theorem checkHighScore_characterization_witness :
    checkHighScoreDb [3, 5] 6 = true ∧ checkHighScoreTop10Db [3, 5] 0 = true := by
  constructor
  · exact (checkHighScore_characterization [3, 5] 6).1.mpr
      (Or.inr (by decide))
  · exact (checkHighScore_characterization [3, 5] 0).2.1 (by norm_num)

end VibeSkiing
